import Mathlib

/-!
# Countdown Timer backend — shallow embedding

A shallow embedding of the authentication / preferences / presets core of the
countdown-timer backend (`backend/models.py` and `backend/app.py`):

* the SQLite tables (`users`, `user_preferences`, `user_presets`) become lists
  of rows inside a `DB` record; `AUTOINCREMENT` primary keys become explicit
  counters; `CURRENT_TIMESTAMP` becomes an explicit `now : Nat` argument
  threaded into every operation that records a timestamp;
* the store classes `User`, `UserPreferences`, `UserPresets` become namespaces
  of pure state-transformer functions on `DB`;
* the Flask route handlers become pure functions on an `AppState` that also
  carries the process-wide `token_blacklist` and a counter modelling fresh-jti
  generation; request JSON bodies become `Option`-typed request records
  (`None` body / missing key ↦ `none`);
* external libraries (hashlib, flask_jwt_extended) are modelled at their
  boundary, as documented on each definition.
-/

/-- Row of the `users` table (`init_db`, `models.py`): id is the SQLite
`AUTOINCREMENT` primary key, `created_at` records `CURRENT_TIMESTAMP` at
insert, `last_login` is nullable. -/
structure UserRow where
  id : Nat
  username : String
  email : String
  password_hash : String
  created_at : Nat
  last_login : Option Nat
deriving DecidableEq, Repr

/-- Row of the `user_preferences` table: `UNIQUE(user_id, preference_key)`
is the store-level constraint that `set_preference` upserts against. -/
structure PrefRow where
  user_id : Nat
  preference_key : String
  preference_value : String
  updated_at : Nat
deriving DecidableEq, Repr

/-- Row of the `user_presets` table. -/
structure PresetRow where
  id : Nat
  user_id : Nat
  name : String
  hours : Int
  minutes : Int
  seconds : Int
  created_at : Nat
deriving DecidableEq, Repr

/-- The whole relational store: the three tables in rowid (insertion) order
plus the two `AUTOINCREMENT` counters. -/
structure DB where
  users : List UserRow
  prefs : List PrefRow
  presets : List PresetRow
  next_user_id : Nat
  next_preset_id : Nat
deriving DecidableEq, Repr

/-- Fresh store as produced by `Database.init_db`: empty tables, SQLite
`AUTOINCREMENT` ids starting at 1. -/
def DB.empty : DB := ⟨[], [], [], 1, 1⟩

/-- Models `hashlib.sha256(password.encode()).hexdigest()` used by
`User.hash_password` (`models.py`). The external digest is modelled as an
injective tagging function, which preserves exactly the properties the code
relies on: determinism, and distinct inputs yielding distinct digests. -/
def hash_password (password : String) : String := "sha256:" ++ password

namespace User

/-- Embeds `User.create_user` (`models.py`): hashes the password and runs
`INSERT INTO users (username, email, password_hash) VALUES (?, ?, ?)`.
The SQLite `UNIQUE` constraints on `username` and `email` raise
`IntegrityError` when either value already exists, which the method catches
and turns into `None`; on that path no row is written. -/
def create_user (db : DB) (now : Nat) (username email password : String) :
    Option Nat × DB :=
  if db.users.any (fun r => r.username == username || r.email == email) then
    (none, db)
  else
    let uid := db.next_user_id
    (some uid,
      { db with
        users := db.users ++
          [⟨uid, username, email, hash_password password, now, none⟩]
        next_user_id := uid + 1 })

/-- Embeds `User.get_user_by_username`: `SELECT * FROM users WHERE username = ?`,
returning the first matching row if any. -/
def get_user_by_username (db : DB) (username : String) : Option UserRow :=
  db.users.find? (fun r => r.username == username)

/-- Embeds `User.get_user_by_id`: `SELECT * FROM users WHERE id = ?`. -/
def get_user_by_id (db : DB) (user_id : Nat) : Option UserRow :=
  db.users.find? (fun r => r.id == user_id)

/-- Embeds `User.update_last_login`:
`UPDATE users SET last_login = CURRENT_TIMESTAMP WHERE id = ?`. -/
def update_last_login (db : DB) (now : Nat) (user_id : Nat) : DB :=
  { db with
    users := db.users.map (fun r =>
      if r.id == user_id then { r with last_login := some now } else r) }

/-- Embeds `User.verify_password`: looks the user up by username, compares the stored
hash against the digest of the supplied password with `==`, and on success
updates the last-login timestamp before returning the (pre-update) row. -/
def verify_password (db : DB) (now : Nat) (username password : String) :
    Option UserRow × DB :=
  match get_user_by_username db username with
  | some user =>
    if user.password_hash == hash_password password then
      (some user, update_last_login db now user.id)
    else (none, db)
  | none => (none, db)

end User

namespace UserPreferences

/-- Embeds `UserPreferences.get_preferences`:
`SELECT preference_key, preference_value FROM user_preferences WHERE user_id = ?`,
collected into a key→value mapping (here: the association list in row order). -/
def get_preferences (db : DB) (user_id : Nat) : List (String × String) :=
  (db.prefs.filter (fun r => r.user_id == user_id)).map
    (fun r => (r.preference_key, r.preference_value))

/-- Embeds `UserPreferences.set_preference`: the single-statement upsert
`INSERT ... ON CONFLICT(user_id, preference_key) DO UPDATE SET
preference_value = ?, updated_at = CURRENT_TIMESTAMP`. If a row with the
same `(user_id, key)` exists it is overwritten in place, else a new row is
appended. -/
def set_preference (db : DB) (now : Nat) (user_id : Nat) (key value : String) :
    DB :=
  if db.prefs.any (fun r => r.user_id == user_id && r.preference_key == key) then
    { db with
      prefs := db.prefs.map (fun r =>
        if r.user_id == user_id && r.preference_key == key then
          { r with preference_value := value, updated_at := now }
        else r) }
  else
    { db with prefs := db.prefs ++ [⟨user_id, key, value, now⟩] }

/-- Embeds `UserPreferences.delete_preference`:
`DELETE FROM user_preferences WHERE user_id = ? AND preference_key = ?`. -/
def delete_preference (db : DB) (user_id : Nat) (key : String) : DB :=
  { db with
    prefs := db.prefs.filter (fun r =>
      !(r.user_id == user_id && r.preference_key == key)) }

/-- Embeds `UserPreferences.set_multiple_preferences`: applies `set_preference` to
each pair in iteration order. -/
def set_multiple_preferences (db : DB) (now : Nat) (user_id : Nat) :
    List (String × String) → DB
  | [] => db
  | (k, v) :: rest =>
    set_multiple_preferences (set_preference db now user_id k v) now user_id rest

end UserPreferences

/-- The key a preference row is unique by. -/
def prefKey (r : PrefRow) : Nat × String := (r.user_id, r.preference_key)

/-- The `UNIQUE(user_id, preference_key)` constraint of the
`user_preferences` table, as a predicate on store states: no two rows share
a `(user id, key)` pair. -/
def PrefsUnique (db : DB) : Prop :=
  db.prefs.Pairwise (fun a b => prefKey a ≠ prefKey b)

/-- The ordering used by `ORDER BY created_at DESC` in
`UserPresets.get_presets`: larger (newer) creation timestamps first. -/
def presetDesc (a b : PresetRow) : Prop := b.created_at ≤ a.created_at

instance : DecidableRel presetDesc := fun a b =>
  inferInstanceAs (Decidable (b.created_at ≤ a.created_at))

instance : IsTotal PresetRow presetDesc :=
  ⟨fun a b => (Nat.le_total b.created_at a.created_at).imp id id⟩

instance : IsTrans PresetRow presetDesc :=
  ⟨fun _ _ _ hab hbc => Nat.le_trans hbc hab⟩

namespace UserPresets

/-- Embeds `UserPresets.create_preset`:
`INSERT INTO user_presets (user_id, name, hours, minutes, seconds)`,
returning the fresh `AUTOINCREMENT` id. -/
def create_preset (db : DB) (now : Nat) (user_id : Nat) (name : String)
    (hours minutes seconds : Int) : Nat × DB :=
  let pid := db.next_preset_id
  (pid,
    { db with
      presets := db.presets ++
        [⟨pid, user_id, name, hours, minutes, seconds, now⟩]
      next_preset_id := pid + 1 })

/-- Embeds `UserPresets.get_presets`:
`SELECT ... FROM user_presets WHERE user_id = ? ORDER BY created_at DESC`. -/
def get_presets (db : DB) (user_id : Nat) : List PresetRow :=
  (db.presets.filter (fun r => r.user_id == user_id)).insertionSort presetDesc

/-- Embeds `UserPresets.delete_preset`:
`DELETE FROM user_presets WHERE id = ? AND user_id = ?`. -/
def delete_preset (db : DB) (user_id preset_id : Nat) : DB :=
  { db with
    presets := db.presets.filter (fun r =>
      !(r.id == preset_id && r.user_id == user_id)) }

/-- Embeds `UserPresets.update_preset`:
`UPDATE user_presets SET name = ?, hours = ?, minutes = ?, seconds = ?
WHERE id = ? AND user_id = ?`. -/
def update_preset (db : DB) (user_id preset_id : Nat) (name : String)
    (hours minutes seconds : Int) : DB :=
  { db with
    presets := db.presets.map (fun r =>
      if r.id == preset_id && r.user_id == user_id then
        { r with name := name, hours := hours, minutes := minutes,
                 seconds := seconds }
      else r) }

end UserPresets

/-! ## Service layer (`app.py`) -/

/-- A decoded JWT as minted by `create_access_token(identity=...)` in the
`login` route: the embedded owner id (`sub`), the unique token identifier
(`jti`) used for revocation, and the absolute expiry time — issue time plus
the configured `JWT_ACCESS_TOKEN_EXPIRES = timedelta(hours=24)`. -/
structure Token where
  identity : Nat
  jti : Nat
  exp : Nat
deriving DecidableEq, Repr

/-- Process state of the Flask application: the database, the module-level
`token_blacklist` set (modelled as a duplicate-free list of jtis), and a
counter modelling flask_jwt_extended's fresh-jti (uuid4) generation. -/
structure AppState where
  db : DB
  token_blacklist : List Nat
  next_jti : Nat
deriving DecidableEq, Repr

/-- State at process start: fresh database, empty blacklist. -/
def AppState.empty : AppState := ⟨DB.empty, [], 0⟩

/-- Seconds in the configured 24-hour token lifetime. -/
def JWT_EXPIRES_SECONDS : Nat := 86400

/-- Models flask_jwt_extended's `create_access_token(identity=user_id)`:
mints a token embedding the owner id, a fresh jti and a 24-hour expiry. -/
def create_access_token (st : AppState) (now : Nat) (identity : Nat) :
    Token × AppState :=
  (⟨identity, st.next_jti, now + JWT_EXPIRES_SECONDS⟩,
   { st with next_jti := st.next_jti + 1 })

/-- Embeds `check_if_token_revoked` (`app.py`): the `token_in_blocklist_loader`
callback — a token is revoked iff its jti is in `token_blacklist`. -/
def check_if_token_revoked (st : AppState) (tok : Token) : Bool :=
  st.token_blacklist.contains tok.jti

/-- Models the `@jwt_required()` gate: a request's token resolves to its
embedded identity iff the token is unexpired (flask_jwt_extended rejects a
token once `now` reaches `exp`) and `check_if_token_revoked` is false;
otherwise the request is rejected with 401 Unauthorized (`none`). -/
def authenticate (st : AppState) (now : Nat) (tok : Token) : Option Nat :=
  if now < tok.exp && !check_if_token_revoked st tok then some tok.identity
  else none

/-- Embeds `logout` route: `token_blacklist.add(jti)` — set insertion, modelled as
prepend-if-absent so that list equality is set equality on reachable states. -/
def logout (st : AppState) (tok : Token) : AppState :=
  if st.token_blacklist.contains tok.jti then st
  else { st with token_blacklist := tok.jti :: st.token_blacklist }

/-- JSON body of `POST /api/auth/register`; a missing key is `none`. -/
structure RegisterRequest where
  username : Option String
  email : Option String
  password : Option String
deriving DecidableEq, Repr

/-- Python truthiness test `not data.get(key)` on an optional string field:
true when the key is missing or its value is the empty string. -/
def strBlank : Option String → Bool
  | none => true
  | some s => s == ""

inductive RegisterResult where
  /-- Status 400 with the given error message. -/
  | validationError (msg : String)
  /-- Status 409 `'Username or email already exists'`. -/
  | duplicateError (msg : String)
  /-- Status 201 with the new user id. -/
  | created (user_id : Nat)
deriving DecidableEq, Repr

/-- The default preference set seeded by `register`, in the Python dict's
insertion order. -/
def default_prefs : List (String × String) :=
  [("voice_enabled", "true"), ("default_hours", "0"),
   ("default_minutes", "1"), ("default_seconds", "0")]

/-- Embeds `register` route (`app.py`): presence check on the three fields, then
username ≥ 3 chars, then password ≥ 6 chars; only then `create_user`; on
store success, seeds `default_prefs` and returns 201 with the id; a `None`
from the store becomes 409. -/
def register (st : AppState) (now : Nat) (data : Option RegisterRequest) :
    RegisterResult × AppState :=
  match data with
  | none => (.validationError "Username, email, and password are required", st)
  | some d =>
    if strBlank d.username || strBlank d.email || strBlank d.password then
      (.validationError "Username, email, and password are required", st)
    else
      let username := d.username.getD ""
      let email := d.email.getD ""
      let password := d.password.getD ""
      if username.length < 3 then
        (.validationError "Username must be at least 3 characters", st)
      else if password.length < 6 then
        (.validationError "Password must be at least 6 characters", st)
      else
        match User.create_user st.db now username email password with
        | (some uid, db₁) =>
          let db₂ :=
            UserPreferences.set_multiple_preferences db₁ now uid default_prefs
          (.created uid, { st with db := db₂ })
        | (none, db₁) =>
          (.duplicateError "Username or email already exists",
           { st with db := db₁ })

/-- JSON body of `POST /api/auth/login`. -/
structure LoginRequest where
  username : Option String
  password : Option String
deriving DecidableEq, Repr

inductive LoginResult where
  /-- Status 400 `'Username and password are required'`. -/
  | validationError (msg : String)
  /-- Status 401 `'Invalid username or password'` — one uniform value for both the
  wrong-password and unknown-username causes. -/
  | invalidCredentials (msg : String)
  /-- Status 200 with the minted token and the public user view. -/
  | success (access_token : Token) (id : Nat) (username email : String)
deriving DecidableEq, Repr

/-- Embeds `login` route (`app.py`): presence check, then `verify_password`; on
success mints an access token with `identity = user['id']` and returns it
with the public user view; on failure returns the uniform 401. -/
def login (st : AppState) (now : Nat) (data : Option LoginRequest) :
    LoginResult × AppState :=
  match data with
  | none => (.validationError "Username and password are required", st)
  | some d =>
    if strBlank d.username || strBlank d.password then
      (.validationError "Username and password are required", st)
    else
      match User.verify_password st.db now (d.username.getD "")
          (d.password.getD "") with
      | (some user, db₁) =>
        let (tok, st₁) := create_access_token { st with db := db₁ } now user.id
        (.success tok user.id user.username user.email, st₁)
      | (none, db₁) =>
        (.invalidCredentials "Invalid username or password",
         { st with db := db₁ })

/-- JSON body of preset create/update requests; `int(data.get(k, 0))` gives
missing time fields the default 0. -/
structure PresetRequest where
  name : Option String
  hours : Option Int
  minutes : Option Int
  seconds : Option Int
deriving DecidableEq, Repr

inductive CreatePresetResult where
  /-- Status 400 with the given error message. -/
  | validationError (msg : String)
  /-- Status 201 with the new preset id. -/
  | created (preset_id : Nat)
deriving DecidableEq, Repr

/-- Embeds `create_preset` route (`app.py`), after the `@jwt_required()` gate has
resolved `user_id`: name presence check, then the three range checks in
order (hours 0–23, minutes 0–59, seconds 0–59), each failing with a 400
naming the field and its range before any store call; only then
`UserPresets.create_preset`. -/
def create_preset (st : AppState) (now : Nat) (user_id : Nat)
    (data : Option PresetRequest) : CreatePresetResult × AppState :=
  match data with
  | none => (.validationError "Preset name is required", st)
  | some d =>
    if strBlank d.name then (.validationError "Preset name is required", st)
    else
      let name := d.name.getD ""
      let hours := d.hours.getD 0
      let minutes := d.minutes.getD 0
      let seconds := d.seconds.getD 0
      if hours < 0 || hours > 23 then
        (.validationError "Hours must be between 0 and 23", st)
      else if minutes < 0 || minutes > 59 then
        (.validationError "Minutes must be between 0 and 59", st)
      else if seconds < 0 || seconds > 59 then
        (.validationError "Seconds must be between 0 and 59", st)
      else
        let (pid, db₁) :=
          UserPresets.create_preset st.db now user_id name hours minutes seconds
        (.created pid, { st with db := db₁ })

inductive UpdatePresetResult where
  /-- Status 400 with the given error message. -/
  | validationError (msg : String)
  /-- Status 200 `'Preset updated successfully'`. -/
  | updated
deriving DecidableEq, Repr

/-- Embeds `update_preset` route (`app.py`): name presence check only — the route
performs no range validation on the time fields — then
`UserPresets.update_preset` with whatever integers were supplied. -/
def update_preset (st : AppState) (user_id preset_id : Nat)
    (data : Option PresetRequest) : UpdatePresetResult × AppState :=
  match data with
  | none => (.validationError "Preset name is required", st)
  | some d =>
    if strBlank d.name then (.validationError "Preset name is required", st)
    else
      (.updated,
       { st with
         db := UserPresets.update_preset st.db user_id preset_id
           (d.name.getD "") (d.hours.getD 0) (d.minutes.getD 0)
           (d.seconds.getD 0) })

/-- Embeds `delete_preset` route (`app.py`): unconditional store delete, always
200. -/
def delete_preset (st : AppState) (user_id preset_id : Nat) : AppState :=
  { st with db := UserPresets.delete_preset st.db user_id preset_id }

/-! ## General list lemmas used by the verification -/

/-- Mapping a function that fixes every element of a list is the identity. -/
theorem list_map_id_of_fix {α : Type} (f : α → α) (l : List α)
    (h : ∀ a ∈ l, f a = a) : l.map f = l := by
  induction l with
  | nil => rfl
  | cons a t ih =>
    rw [List.map_cons, h a (List.mem_cons_self a t),
      ih (fun b hb => h b (List.mem_cons_of_mem a hb))]

/-- Filtering by `p` after filtering by a weaker predicate `q` is the same as
filtering by `p` alone. -/
theorem list_filter_filter_of_imp {α : Type} (p q : α → Bool)
    (h : ∀ a, p a = true → q a = true) (l : List α) :
    (l.filter q).filter p = l.filter p := by
  induction l with
  | nil => rfl
  | cons a t ih =>
    rw [List.filter_cons, List.filter_cons]
    cases hq : q a with
    | true => rw [if_pos rfl, List.filter_cons, ih]
    | false =>
      have hp : p a = false := by
        cases hpa : p a with
        | false => rfl
        | true => rw [h a hpa] at hq; exact absurd hq (by decide)
      simp [hp, ih]

/-- Filtering after a map that neither moves elements across the predicate nor
changes the elements satisfying it commutes away. -/
theorem list_filter_map_invariant {α : Type} (p : α → Bool) (f : α → α)
    (hpf : ∀ a, p (f a) = p a) (hfix : ∀ a, p a = true → f a = a)
    (l : List α) : (l.map f).filter p = l.filter p := by
  induction l with
  | nil => rfl
  | cons a t ih =>
    rw [List.map_cons, List.filter_cons, List.filter_cons, hpf a]
    cases h : p a with
    | true => rw [if_pos rfl, if_pos rfl, hfix a h, ih]
    | false => simp [ih]

/-- If at most one element of `l` satisfies `p` (pairwise), at least one does,
and `f` maps every satisfying element to the constant `b` while preserving
`p`-membership, then filtering the mapped list yields exactly `[b]`. -/
theorem list_filter_map_const {α : Type} (p : α → Bool) (f : α → α) (b : α)
    (hpf : ∀ a, p (f a) = p a) (hb : ∀ a, p a = true → f a = b)
    (l : List α) (hpw : l.Pairwise (fun x y => ¬(p x = true ∧ p y = true)))
    (hany : l.any p = true) : (l.map f).filter p = [b] := by
  induction l with
  | nil => exact absurd hany (by simp)
  | cons a t ih =>
    rw [List.pairwise_cons] at hpw
    rw [List.map_cons, List.filter_cons, hpf a]
    cases h : p a with
    | true =>
      have ht : ∀ x ∈ t, p x = false := by
        intro x hx
        cases hpx : p x with
        | false => rfl
        | true => exact absurd ⟨h, hpx⟩ (hpw.1 x hx)
      have hnil : (t.map f).filter p = [] := by
        refine List.filter_eq_nil_iff.mpr ?_
        intro x hx
        obtain ⟨y, hy, rfl⟩ := List.mem_map.mp hx
        rw [hpf y, ht y hy]
        exact Bool.false_ne_true
      rw [if_pos rfl, hb a h, hnil]
    | false =>
      have hany' : t.any p = true := by
        rcases List.any_eq_true.mp hany with ⟨x, hx, hpx⟩
        rcases List.mem_cons.mp hx with rfl | hxt
        · rw [h] at hpx; exact absurd hpx (by decide)
        · exact List.any_eq_true.mpr ⟨x, hxt, hpx⟩
      simp only [Bool.false_eq_true, if_false]
      exact ih hpw.2 hany'

/-- A string with positive length bound is not the empty string (as a `==`
test). -/
theorem strBlank_some_false {s : String} {n : Nat} (hn : 0 < n)
    (h : n ≤ s.length) : strBlank (some s) = false := by
  show (s == "") = false
  cases hs : s == "" with
  | false => rfl
  | true =>
    rw [beq_iff_eq] at hs; subst hs
    simp [String.length] at h
    omega

/-! ## Claim theorems -/

/-- C2: after `logout(token)`, every subsequent `authenticate(token)` fails
(returns `none`, the 401 Unauthorized outcome) at every time `now`, in
particular even while the token's embedded 24-hour expiry has not elapsed;
and `logout` is idempotent — a second `logout` of the same token returns the
state (revocation set included) entirely unchanged and is not an error. -/
theorem logout_revokes_and_idempotent (st : AppState) (tok : Token) :
    (∀ now, authenticate (logout st tok) now tok = none) ∧
    logout (logout st tok) tok = logout st tok := by
  have hmem : tok.jti ∈ (logout st tok).token_blacklist := by
    unfold logout
    by_cases h : tok.jti ∈ st.token_blacklist
    · simp [h]
    · simp [h]
  refine ⟨fun now => ?_, ?_⟩
  · unfold authenticate check_if_token_revoked
    simp [hmem]
  · unfold logout
    by_cases h : tok.jti ∈ st.token_blacklist
    · simp [h]
    · simp [h, hmem]

/-- C9: `get_presets` returns a permutation of exactly the presets owned by
the requested user (hence the empty sequence when the user owns none), and
the returned sequence is sorted newest-created-first, i.e. descending by
creation timestamp. -/
theorem get_presets_exact_and_ordered (db : DB) (u : Nat) :
    (UserPresets.get_presets db u).Perm
      (db.presets.filter (fun r => r.user_id == u)) ∧
    List.Sorted presetDesc (UserPresets.get_presets db u) :=
  ⟨List.perm_insertionSort presetDesc _, List.sorted_insertionSort presetDesc _⟩

/-- C8: when preset `pid` does not belong to user `u`, both
`UserPresets.update_preset` and `UserPresets.delete_preset` invoked by `u`
on `pid` are silent no-ops: they complete without error and leave the whole
store state — including any preset with id `pid` owned by another user —
unchanged. -/
theorem preset_foreign_mutation_noop (db : DB) (u pid : Nat) (name : String)
    (hh hm hs : Int)
    (hown : ∀ r ∈ db.presets, r.id = pid → r.user_id ≠ u) :
    UserPresets.update_preset db u pid name hh hm hs = db ∧
    UserPresets.delete_preset db u pid = db := by
  have hcond : ∀ r ∈ db.presets, (r.id == pid && r.user_id == u) = false := by
    intro r hr
    cases h2 : r.id == pid with
    | false => simp
    | true =>
      have hne := hown r hr (by simpa using h2)
      simp only [Bool.true_and]
      exact beq_eq_false_iff_ne.mpr hne
  constructor
  · unfold UserPresets.update_preset
    rw [list_map_id_of_fix _ _ (fun r hr => by simp [hcond r hr])]
  · unfold UserPresets.delete_preset
    rw [List.filter_eq_self.mpr (fun r hr => by simp [hcond r hr])]

/-- C8 witness: a store holding one preset (id 1) owned by user 2; user 1's
update and delete of preset 1 leave the store unchanged. -/
theorem preset_foreign_mutation_noop_witness :
    UserPresets.update_preset ⟨[], [], [⟨1, 2, "A", 0, 1, 2, 0⟩], 1, 2⟩ 1 1
        "B" 5 6 7
      = ⟨[], [], [⟨1, 2, "A", 0, 1, 2, 0⟩], 1, 2⟩ ∧
    UserPresets.delete_preset ⟨[], [], [⟨1, 2, "A", 0, 1, 2, 0⟩], 1, 2⟩ 1 1
      = ⟨[], [], [⟨1, 2, "A", 0, 1, 2, 0⟩], 1, 2⟩ :=
  preset_foreign_mutation_noop ⟨[], [], [⟨1, 2, "A", 0, 1, 2, 0⟩], 1, 2⟩ 1 1
    "B" 5 6 7 (by decide)

/-- C1 counterexample: the claim "every operation that writes preset time
fields (create and update alike) first validates each bound" is false.
Starting from a fresh state, create a valid preset (1h 2m 3s) for user 7,
then update it with hours = 25, minutes = 61, seconds = 61: the update
route reports success and the stored row leaves every modular range, so the
claimed invariant fails for rows written through update. -/
theorem preset_update_unvalidated_cex :
    (update_preset
        (create_preset AppState.empty 0 7
          (some ⟨some "Focus", some 1, some 2, some 3⟩)).2
        7 1 (some ⟨some "Focus", some 25, some 61, some 61⟩)).1
      = UpdatePresetResult.updated ∧
    (update_preset
        (create_preset AppState.empty 0 7
          (some ⟨some "Focus", some 1, some 2, some 3⟩)).2
        7 1 (some ⟨some "Focus", some 25, some 61, some 61⟩)).2.db.presets
      = [⟨1, 7, "Focus", 25, 61, 61, 0⟩] := by
  constructor <;> rfl

/-- C1 (amended): only the create path validates the time bounds. For a
request with a name present, `create_preset` checks hours ∈ [0,23],
minutes ∈ [0,59], seconds ∈ [0,59] in that order, failing with a 400
`ValidationError` naming the offending field and its range with the store
untouched, and a successful create stores exactly one new row whose fields
are within all three ranges; `update_preset`, by contrast, performs no
time-field validation and succeeds for arbitrary field values. -/
theorem preset_create_validates_bounds (st : AppState) (now u : Nat)
    (d : PresetRequest) (hname : strBlank d.name = false) :
    ((d.hours.getD 0 < 0 ∨ 23 < d.hours.getD 0) →
      create_preset st now u (some d)
        = (.validationError "Hours must be between 0 and 23", st)) ∧
    (0 ≤ d.hours.getD 0 → d.hours.getD 0 ≤ 23 →
      (d.minutes.getD 0 < 0 ∨ 59 < d.minutes.getD 0) →
      create_preset st now u (some d)
        = (.validationError "Minutes must be between 0 and 59", st)) ∧
    (0 ≤ d.hours.getD 0 → d.hours.getD 0 ≤ 23 →
      0 ≤ d.minutes.getD 0 → d.minutes.getD 0 ≤ 59 →
      (d.seconds.getD 0 < 0 ∨ 59 < d.seconds.getD 0) →
      create_preset st now u (some d)
        = (.validationError "Seconds must be between 0 and 59", st)) ∧
    (∀ pid, (create_preset st now u (some d)).1 = .created pid →
      (0 ≤ d.hours.getD 0 ∧ d.hours.getD 0 ≤ 23 ∧
       0 ≤ d.minutes.getD 0 ∧ d.minutes.getD 0 ≤ 59 ∧
       0 ≤ d.seconds.getD 0 ∧ d.seconds.getD 0 ≤ 59) ∧
      (create_preset st now u (some d)).2.db.presets
        = st.db.presets ++ [⟨st.db.next_preset_id, u, d.name.getD "",
            d.hours.getD 0, d.minutes.getD 0, d.seconds.getD 0, now⟩]) ∧
    (∀ pid, (update_preset st u pid (some d)).1 = .updated) := by
  refine ⟨?_, ?_, ?_, ?_, ?_⟩
  · intro h
    have hc : (decide (d.hours.getD 0 < 0) || decide (d.hours.getD 0 > 23))
        = true := by rcases h with h | h <;> simp [h]
    simp [create_preset, hname, hc]
  · intro h0 h23 h
    have hc : (decide (d.hours.getD 0 < 0) || decide (d.hours.getD 0 > 23))
        = false := by simp; omega
    have hm : (decide (d.minutes.getD 0 < 0) || decide (d.minutes.getD 0 > 59))
        = true := by rcases h with h | h <;> simp [h]
    simp [create_preset, hname, hc, hm]
  · intro h0 h23 hm0 hm59 h
    have hc : (decide (d.hours.getD 0 < 0) || decide (d.hours.getD 0 > 23))
        = false := by simp; omega
    have hm : (decide (d.minutes.getD 0 < 0) || decide (d.minutes.getD 0 > 59))
        = false := by simp; omega
    have hs' : (decide (d.seconds.getD 0 < 0) || decide (d.seconds.getD 0 > 59))
        = true := by rcases h with h | h <;> simp [h]
    simp [create_preset, hname, hc, hm, hs']
  · intro pid hres
    by_cases hc : (decide (d.hours.getD 0 < 0) || decide (d.hours.getD 0 > 23))
        = true
    · simp [create_preset, hname, hc] at hres
    by_cases hm : (decide (d.minutes.getD 0 < 0) || decide (d.minutes.getD 0 > 59))
        = true
    · simp [create_preset, hname, Bool.of_not_eq_true hc, hm] at hres
    by_cases hs' : (decide (d.seconds.getD 0 < 0) || decide (d.seconds.getD 0 > 59))
        = true
    · simp [create_preset, hname, Bool.of_not_eq_true hc,
        Bool.of_not_eq_true hm, hs'] at hres
    refine ⟨?_, ?_⟩
    · simp at hc hm hs'
      omega
    · simp [create_preset, hname, Bool.of_not_eq_true hc,
        Bool.of_not_eq_true hm, Bool.of_not_eq_true hs',
        UserPresets.create_preset]
  · intro pid
    simp [update_preset, hname]

/-- C1 amended witness: creating a preset with hours = 25 from a fresh state
fails with the hours-range 400 and stores nothing, while updating with the
same out-of-range fields reports success. -/
theorem preset_create_validates_bounds_witness :
    create_preset AppState.empty 0 7 (some ⟨some "x", some 25, some 0, some 0⟩)
      = (.validationError "Hours must be between 0 and 23", AppState.empty) ∧
    (update_preset AppState.empty 7 1
        (some ⟨some "x", some 25, some 0, some 0⟩)).1
      = UpdatePresetResult.updated :=
  ⟨(preset_create_validates_bounds AppState.empty 0 7
      ⟨some "x", some 25, some 0, some 0⟩ (by decide)).1 (Or.inr (by decide)),
   (preset_create_validates_bounds AppState.empty 0 7
      ⟨some "x", some 25, some 0, some 0⟩ (by decide)).2.2.2.2 1⟩

/-- Preference writes never touch the `users` table. -/
theorem set_preference_users (db : DB) (now u : Nat) (k v : String) :
    (UserPreferences.set_preference db now u k v).users = db.users := by
  unfold UserPreferences.set_preference
  split <;> rfl

/-- Seeding a batch of preferences never touches the `users` table. -/
theorem set_multiple_preferences_users (now u : Nat)
    (ps : List (String × String)) : ∀ db : DB,
    (UserPreferences.set_multiple_preferences db now u ps).users = db.users := by
  induction ps with
  | nil => intro db; rfl
  | cons kv rest ih =>
    intro db
    obtain ⟨k, v⟩ := kv
    rw [UserPreferences.set_multiple_preferences, ih, set_preference_users]

/-- Evaluation of the `register` route when validation passes and the store's
uniqueness check finds no conflict: a 201 with the fresh id, the new user row
appended, and the default preferences seeded for the fresh id. -/
theorem register_success_eq (st : AppState) (now : Nat) (u e p : String)
    (hu : 3 ≤ u.length) (hp : 6 ≤ p.length) (he : e ≠ "")
    (hany : st.db.users.any (fun r => r.username == u || r.email == e)
      = false) :
    register st now (some ⟨some u, some e, some p⟩)
      = (.created st.db.next_user_id,
         { st with db :=
             (UserPreferences.set_multiple_preferences
               ({ st.db with
                  users := st.db.users ++
                    [⟨st.db.next_user_id, u, e, hash_password p, now, none⟩]
                  next_user_id := st.db.next_user_id + 1 })
               now st.db.next_user_id default_prefs) }) := by
  have hbu : strBlank (some u) = false := strBlank_some_false (by decide) hu
  have hbe : strBlank (some e) = false := by
    show (e == "") = false
    exact beq_eq_false_iff_ne.mpr he
  have hbp : strBlank (some p) = false := strBlank_some_false (by decide) hp
  have h3 : ¬(u.length < 3) := by omega
  have h6 : ¬(p.length < 6) := by omega
  simp [register, hbu, hbe, hbp, h3, h6, User.create_user, hany]

/-- Evaluation of the `register` route when validation passes but the store's
uniqueness check finds a conflicting username or email: a 409 and the state
entirely unchanged. -/
theorem register_duplicate_eq (st : AppState) (now : Nat) (u e p : String)
    (hu : 3 ≤ u.length) (hp : 6 ≤ p.length) (he : e ≠ "")
    (hany : st.db.users.any (fun r => r.username == u || r.email == e)
      = true) :
    register st now (some ⟨some u, some e, some p⟩)
      = (.duplicateError "Username or email already exists", st) := by
  have hbu : strBlank (some u) = false := strBlank_some_false (by decide) hu
  have hbe : strBlank (some e) = false := by
    show (e == "") = false
    exact beq_eq_false_iff_ne.mpr he
  have hbp : strBlank (some p) = false := strBlank_some_false (by decide) hp
  have h3 : ¬(u.length < 3) := by omega
  have h6 : ¬(p.length < 6) := by omega
  simp [register, hbu, hbe, hbp, h3, h6, User.create_user, hany]

/-- C3: for a valid input triple (username ≥ 3 chars, email, password ≥ 6
chars) whose username and email are both fresh, `register` succeeds and
returns the numeric fresh user id; a second valid `register` re-using the
same username or the same email fails with the 409 `DuplicateError` and
inserts no new user row (the duplicate is detected by the store's uniqueness
check inside `create_user`, the sole duplicate check — the route performs no
separate existence pre-check). -/
theorem register_unique (st : AppState) (now₁ now₂ : Nat)
    (u e p u' e' p' : String)
    (hu : 3 ≤ u.length) (hp : 6 ≤ p.length) (he : e ≠ "")
    (hu' : 3 ≤ u'.length) (hp' : 6 ≤ p'.length) (he' : e' ≠ "")
    (hfresh : ∀ r ∈ st.db.users, r.username ≠ u ∧ r.email ≠ e)
    (hsame : u' = u ∨ e' = e) :
    (register st now₁ (some ⟨some u, some e, some p⟩)).1
      = .created st.db.next_user_id ∧
    register (register st now₁ (some ⟨some u, some e, some p⟩)).2 now₂
        (some ⟨some u', some e', some p'⟩)
      = (.duplicateError "Username or email already exists",
         (register st now₁ (some ⟨some u, some e, some p⟩)).2) := by
  have hany₁ : st.db.users.any (fun r => r.username == u || r.email == e)
      = false := by
    refine List.any_eq_false.mpr ?_
    intro r hr
    simp [(hfresh r hr).1, (hfresh r hr).2]
  have h₁ := register_success_eq st now₁ u e p hu hp he hany₁
  have husers : (register st now₁ (some ⟨some u, some e, some p⟩)).2.db.users
      = st.db.users ++
        [⟨st.db.next_user_id, u, e, hash_password p, now₁, none⟩] := by
    rw [h₁]
    exact set_multiple_preferences_users _ _ _ _
  have hany₂ :
      (register st now₁ (some ⟨some u, some e, some p⟩)).2.db.users.any
        (fun r => r.username == u' || r.email == e') = true := by
    rw [husers, List.any_append]
    rcases hsame with rfl | rfl
    · simp
    · simp
  refine ⟨by rw [h₁], ?_⟩
  exact register_duplicate_eq _ now₂ u' e' p' hu' hp' he' hany₂

/-- C3 witness: from a fresh state, registering bob succeeds with id 1, and
a second registration with the same username (different email, valid
password) is rejected as a duplicate with the state unchanged. -/
theorem register_unique_witness :
    (register AppState.empty 0
        (some ⟨some "bob", some "bob@x.com", some "secret1"⟩)).1
      = .created 1 ∧
    register (register AppState.empty 0
        (some ⟨some "bob", some "bob@x.com", some "secret1"⟩)).2 1
        (some ⟨some "bob", some "new@x.com", some "secret2"⟩)
      = (.duplicateError "Username or email already exists",
         (register AppState.empty 0
            (some ⟨some "bob", some "bob@x.com", some "secret1"⟩)).2) :=
  register_unique AppState.empty 0 1 "bob" "bob@x.com" "secret1" "bob"
    "new@x.com" "secret2" (by decide) (by decide) (by decide) (by decide)
    (by decide) (by decide) (by decide) (Or.inl rfl)

/-- A row passing the `(user id, key)` match test has exactly that user id
and key. -/
theorem prefMatch_eq {u : Nat} {k : String} {a : PrefRow}
    (ha : (a.user_id == u && a.preference_key == k) = true) :
    a.user_id = u ∧ a.preference_key = k := by
  simp only [Bool.and_eq_true, beq_iff_eq] at ha
  exact ha

/-- The single-statement upsert preserves the `(user id, key)` uniqueness
constraint. -/
theorem set_preference_unique (db : DB) (now u : Nat) (k v : String)
    (h : PrefsUnique db) :
    PrefsUnique (UserPreferences.set_preference db now u k v) := by
  unfold PrefsUnique at h ⊢
  unfold UserPreferences.set_preference
  split
  case isTrue hany =>
    refine List.Pairwise.map _ ?_ h
    intro a b hab
    have ka : ∀ r : PrefRow,
        prefKey (if r.user_id == u && r.preference_key == k then
          { r with preference_value := v, updated_at := now } else r)
          = prefKey r := by
      intro r; split <;> rfl
    rw [ka, ka]
    exact hab
  case isFalse hany =>
    rw [List.pairwise_append]
    refine ⟨h, List.pairwise_singleton _ _, ?_⟩
    intro x hx y hy
    rw [List.mem_singleton] at hy
    subst hy
    have hx' : (x.user_id == u && x.preference_key == k) = false := by
      cases hc : (x.user_id == u && x.preference_key == k) with
      | false => rfl
      | true =>
        exact absurd (List.any_eq_true.mpr ⟨x, hx, hc⟩) hany
    intro hkey
    have h1 : x.user_id = u := congrArg Prod.fst hkey
    have h2 : x.preference_key = k := congrArg Prod.snd hkey
    simp [h1, h2] at hx'

/-- After an upsert of `(u, k) ↦ v` on a store satisfying the uniqueness
constraint, the rows matching `(u, k)` are exactly the single row
`⟨u, k, v, now⟩`. -/
theorem set_preference_filter (db : DB) (now u : Nat) (k v : String)
    (h : PrefsUnique db) :
    (UserPreferences.set_preference db now u k v).prefs.filter
        (fun r => r.user_id == u && r.preference_key == k)
      = [⟨u, k, v, now⟩] := by
  unfold UserPreferences.set_preference
  split
  case isTrue hany =>
    refine list_filter_map_const _ _ _ ?_ ?_ _ ?_ hany
    · intro a
      split <;> rfl
    · intro a ha
      obtain ⟨h1, h2⟩ := prefMatch_eq ha
      simp only [ha, if_true]
      cases a
      simp only at h1 h2
      subst h1
      subst h2
      rfl
    · refine h.imp ?_
      intro a b hne hcon
      obtain ⟨a1, a2⟩ := prefMatch_eq hcon.1
      obtain ⟨b1, b2⟩ := prefMatch_eq hcon.2
      exact hne (by simp [prefKey, a1, a2, b1, b2])
  case isFalse hany =>
    rw [List.filter_append]
    have h1 : db.prefs.filter
        (fun r => r.user_id == u && r.preference_key == k) = [] := by
      refine List.filter_eq_nil_iff.mpr ?_
      intro x hx hc
      exact absurd (List.any_eq_true.mpr ⟨x, hx, hc⟩) hany
    rw [h1]
    simp

/-- C4: `set_preference` is an idempotent-key upsert. Starting from any store
satisfying the `(user id, key)` uniqueness constraint, setting `(u, k)` to
`v₁` and then to `v₂` leaves exactly one row for `(u, k)` — value `v₂`,
timestamp refreshed to the second write — the uniqueness constraint still
holds afterwards, and the second write overwrites in place rather than
appending (the row count does not grow). -/
theorem set_preference_upsert (db : DB) (now₁ now₂ u : Nat) (k v₁ v₂ : String)
    (h : PrefsUnique db) :
    (UserPreferences.set_preference
        (UserPreferences.set_preference db now₁ u k v₁) now₂ u k v₂).prefs.filter
        (fun r => r.user_id == u && r.preference_key == k)
      = [⟨u, k, v₂, now₂⟩] ∧
    PrefsUnique (UserPreferences.set_preference
        (UserPreferences.set_preference db now₁ u k v₁) now₂ u k v₂) ∧
    (UserPreferences.set_preference
        (UserPreferences.set_preference db now₁ u k v₁) now₂ u k v₂).prefs.length
      = (UserPreferences.set_preference db now₁ u k v₁).prefs.length := by
  have h₁ : PrefsUnique (UserPreferences.set_preference db now₁ u k v₁) :=
    set_preference_unique db now₁ u k v₁ h
  refine ⟨set_preference_filter _ now₂ u k v₂ h₁,
    set_preference_unique _ now₂ u k v₂ h₁, ?_⟩
  set db₁ := UserPreferences.set_preference db now₁ u k v₁
  have hfil : db₁.prefs.filter
      (fun r => r.user_id == u && r.preference_key == k)
      = [⟨u, k, v₁, now₁⟩] := set_preference_filter db now₁ u k v₁ h
  have hmem : (⟨u, k, v₁, now₁⟩ : PrefRow) ∈ db₁.prefs.filter
      (fun r => r.user_id == u && r.preference_key == k) := by
    rw [hfil]
    exact List.mem_singleton_self _
  rw [List.mem_filter] at hmem
  have hany : db₁.prefs.any
      (fun r => r.user_id == u && r.preference_key == k) = true :=
    List.any_eq_true.mpr ⟨_, hmem.1, hmem.2⟩
  show (UserPreferences.set_preference db₁ now₂ u k v₂).prefs.length
      = db₁.prefs.length
  unfold UserPreferences.set_preference
  simp [hany]

/-- C4 witness: on a fresh store, setting user 1's key "k" to "v1" then "v2"
leaves exactly one matching row holding "v2", uniqueness still holds, and no
row was appended by the second write. -/
theorem set_preference_upsert_witness :
    (UserPreferences.set_preference
        (UserPreferences.set_preference DB.empty 3 1 "k" "v1") 4 1 "k"
        "v2").prefs.filter
        (fun r => r.user_id == 1 && r.preference_key == "k")
      = [⟨1, "k", "v2", 4⟩] ∧
    PrefsUnique (UserPreferences.set_preference
        (UserPreferences.set_preference DB.empty 3 1 "k" "v1") 4 1 "k"
        "v2") ∧
    (UserPreferences.set_preference
        (UserPreferences.set_preference DB.empty 3 1 "k" "v1") 4 1 "k"
        "v2").prefs.length
      = (UserPreferences.set_preference DB.empty 3 1 "k" "v1").prefs.length :=
  set_preference_upsert DB.empty 3 4 1 "k" "v1" "v2" List.Pairwise.nil

/-- C5: `login` with a correct username/password pair returns a 200 whose
token embeds the stored user's id as owner, and as a side effect the
returned state has that user's last-login timestamp updated; `login` with a
wrong password and `login` with an unknown username both return the very
same `InvalidCredentials` outcome (401, message 'Invalid username or
password') with the state unchanged — no detail distinguishes the two
causes. -/
theorem login_correctness (st : AppState) (now : Nat) (u p : String)
    (hu : u ≠ "") (hp : p ≠ "") :
    (∀ row, User.get_user_by_username st.db u = some row →
      ((row.password_hash = hash_password p →
         login st now (some ⟨some u, some p⟩)
           = (.success ⟨row.id, st.next_jti, now + JWT_EXPIRES_SECONDS⟩
                row.id row.username row.email,
              { st with
                db := User.update_last_login st.db now row.id
                next_jti := st.next_jti + 1 })) ∧
       (row.password_hash ≠ hash_password p →
         login st now (some ⟨some u, some p⟩)
           = (.invalidCredentials "Invalid username or password", st)))) ∧
    (User.get_user_by_username st.db u = none →
      login st now (some ⟨some u, some p⟩)
        = (.invalidCredentials "Invalid username or password", st)) := by
  have hbu : strBlank (some u) = false := by
    show (u == "") = false
    exact beq_eq_false_iff_ne.mpr hu
  have hbp : strBlank (some p) = false := by
    show (p == "") = false
    exact beq_eq_false_iff_ne.mpr hp
  refine ⟨fun row hrow => ⟨fun hok => ?_, fun hne => ?_⟩, fun hnone => ?_⟩
  · simp [login, hbu, hbp, User.verify_password, hrow, hok,
      create_access_token]
  · have hne' : (row.password_hash == hash_password p) = false :=
      beq_eq_false_iff_ne.mpr hne
    simp [login, hbu, hbp, User.verify_password, hrow, hne']
  · simp [login, hbu, hbp, User.verify_password, hnone]

/-- C5 witness: with alice (id 1, password "password1") registered, a correct
login at time 5 returns a token owned by id 1 and stamps her last login,
while a wrong password and an unknown username both yield the identical 401
outcome with the state untouched. -/
theorem login_correctness_witness :
    login ⟨⟨[⟨1, "alice", "a@x.com", hash_password "password1", 0, none⟩],
        [], [], 2, 1⟩, [], 0⟩ 5 (some ⟨some "alice", some "password1"⟩)
      = (.success ⟨1, 0, 86405⟩ 1 "alice" "a@x.com",
         ⟨⟨[⟨1, "alice", "a@x.com", hash_password "password1", 0, some 5⟩],
            [], [], 2, 1⟩, [], 1⟩) ∧
    login ⟨⟨[⟨1, "alice", "a@x.com", hash_password "password1", 0, none⟩],
        [], [], 2, 1⟩, [], 0⟩ 5 (some ⟨some "alice", some "wrong1"⟩)
      = (.invalidCredentials "Invalid username or password",
         ⟨⟨[⟨1, "alice", "a@x.com", hash_password "password1", 0, none⟩],
            [], [], 2, 1⟩, [], 0⟩) ∧
    login ⟨⟨[⟨1, "alice", "a@x.com", hash_password "password1", 0, none⟩],
        [], [], 2, 1⟩, [], 0⟩ 5 (some ⟨some "carol", some "password1"⟩)
      = (.invalidCredentials "Invalid username or password",
         ⟨⟨[⟨1, "alice", "a@x.com", hash_password "password1", 0, none⟩],
            [], [], 2, 1⟩, [], 0⟩) :=
  ⟨(((login_correctness
        ⟨⟨[⟨1, "alice", "a@x.com", hash_password "password1", 0, none⟩],
           [], [], 2, 1⟩, [], 0⟩ 5 "alice" "password1" (by decide)
        (by decide)).1
      ⟨1, "alice", "a@x.com", hash_password "password1", 0, none⟩ rfl).1
      rfl).trans (by decide),
   (((login_correctness
        ⟨⟨[⟨1, "alice", "a@x.com", hash_password "password1", 0, none⟩],
           [], [], 2, 1⟩, [], 0⟩ 5 "alice" "wrong1" (by decide)
        (by decide)).1
      ⟨1, "alice", "a@x.com", hash_password "password1", 0, none⟩ rfl).2
      (by decide)),
   ((login_correctness
        ⟨⟨[⟨1, "alice", "a@x.com", hash_password "password1", 0, none⟩],
           [], [], 2, 1⟩, [], 0⟩ 5 "carol" "password1" (by decide)
        (by decide)).2 rfl)⟩

/-- Seeding a batch of distinct keys for a user whose existing rows collide
with none of them appends exactly the seeded rows, in batch order. -/
theorem set_multiple_preferences_fresh (now u : Nat) :
    ∀ (ps : List (String × String)) (db : DB),
      (ps.map Prod.fst).Nodup →
      (∀ r ∈ db.prefs, r.user_id = u → r.preference_key ∉ ps.map Prod.fst) →
      (UserPreferences.set_multiple_preferences db now u ps).prefs
        = db.prefs ++ ps.map (fun kv => ⟨u, kv.1, kv.2, now⟩) := by
  intro ps
  induction ps with
  | nil =>
    intro db _ _
    simp [UserPreferences.set_multiple_preferences]
  | cons kv rest ih =>
    intro db hnd hnk
    obtain ⟨k, v⟩ := kv
    simp only [List.map_cons, List.nodup_cons] at hnd
    have hany : db.prefs.any
        (fun r => r.user_id == u && r.preference_key == k) = false := by
      refine List.any_eq_false.mpr ?_
      intro r hr hc
      obtain ⟨h1, h2⟩ := prefMatch_eq hc
      exact hnk r hr h1 (by simp [h2])
    have hset : (UserPreferences.set_preference db now u k v).prefs
        = db.prefs ++ [⟨u, k, v, now⟩] := by
      unfold UserPreferences.set_preference
      simp [hany]
    have hih := ih (UserPreferences.set_preference db now u k v) hnd.2 ?side
    case side =>
      intro r hr h1
      rw [hset] at hr
      rcases List.mem_append.mp hr with hr | hr
      · intro hmem
        exact hnk r hr h1 (by simp [hmem])
      · rw [List.mem_singleton] at hr
        subst hr
        exact hnd.1
    rw [UserPreferences.set_multiple_preferences, hih, hset]
    simp

/-- C7: immediately after every successful `register`, the new user's
preference map holds exactly the four default entries voice_enabled="true",
default_hours="0", default_minutes="1", default_seconds="0", seeded only
after the Credential Store insert succeeded; a failed `register`
(validation failure or duplicate) seeds nothing — the preference table is
unchanged. -/
theorem register_seeds_defaults (st : AppState) (now : Nat)
    (data : Option RegisterRequest)
    (hfresh : ∀ r ∈ st.db.prefs, r.user_id ≠ st.db.next_user_id) :
    (∀ uid, (register st now data).1 = .created uid →
      UserPreferences.get_preferences (register st now data).2.db uid
        = default_prefs) ∧
    ((∀ uid, (register st now data).1 ≠ .created uid) →
      (register st now data).2.db.prefs = st.db.prefs) := by
  have hmaster :
      ((register st now data).1 = .created st.db.next_user_id ∧
        (register st now data).2.db.prefs
          = st.db.prefs ++ default_prefs.map
              (fun kv => ⟨st.db.next_user_id, kv.1, kv.2, now⟩)) ∨
      ((∀ uid, (register st now data).1 ≠ .created uid) ∧
        (register st now data).2.db.prefs = st.db.prefs) := by
    match data with
    | none => exact Or.inr ⟨fun uid => by simp [register], rfl⟩
    | some d =>
      by_cases hbu : strBlank d.username = true
      · exact Or.inr ⟨fun uid => by simp [register, hbu], by simp [register, hbu]⟩
      by_cases hbe : strBlank d.email = true
      · exact Or.inr ⟨fun uid => by simp [register, hbe], by simp [register, hbe]⟩
      by_cases hbp : strBlank d.password = true
      · exact Or.inr ⟨fun uid => by simp [register, hbp], by simp [register, hbp]⟩
      have hbu' := Bool.of_not_eq_true hbu
      have hbe' := Bool.of_not_eq_true hbe
      have hbp' := Bool.of_not_eq_true hbp
      match d, hbu', hbe', hbp' with
      | ⟨some su, some se, some sp⟩, hbu', hbe', hbp' =>
      have hse : se ≠ "" := by
        intro h
        rw [h] at hbe'
        simp [strBlank] at hbe'
      by_cases h3 : su.length < 3
      · exact Or.inr ⟨fun uid => by simp [register, hbu', hbe', hbp', h3],
          by simp [register, hbu', hbe', hbp', h3]⟩
      by_cases h6 : sp.length < 6
      · exact Or.inr ⟨fun uid => by simp [register, hbu', hbe', hbp', h3, h6],
          by simp [register, hbu', hbe', hbp', h3, h6]⟩
      by_cases hany : st.db.users.any
          (fun r => r.username == su || r.email == se) = true
      · rw [register_duplicate_eq st now su se sp (by omega) (by omega) hse
          hany]
        exact Or.inr ⟨fun uid => by simp, rfl⟩
      · rw [register_success_eq st now su se sp (by omega) (by omega) hse
          (Bool.of_not_eq_true hany)]
        refine Or.inl ⟨rfl, ?_⟩
        refine (set_multiple_preferences_fresh now st.db.next_user_id
          default_prefs _ (by decide) ?_)
        intro r hr h1
        exact absurd h1 (hfresh r hr)
  constructor
  · intro uid huid
    rcases hmaster with ⟨h1, h2⟩ | ⟨h1, _⟩
    · rw [h1] at huid
      cases huid
      rw [UserPreferences.get_preferences, h2, List.filter_append]
      have hnil : st.db.prefs.filter
          (fun r => r.user_id == st.db.next_user_id) = [] :=
        List.filter_eq_nil_iff.mpr
          (fun r hr hc => hfresh r hr (by simpa using hc))
      rw [hnil]
      simp [default_prefs]
    · exact absurd huid (h1 uid)
  · intro hner
    rcases hmaster with ⟨h1, _⟩ | ⟨_, h2⟩
    · exact absurd h1 (hner st.db.next_user_id)
    · exact h2

/-- C7 witness: registering carol on a fresh state succeeds with id 1, and
her preference map afterwards is exactly the four defaults; an invalid
registration (short password) on the same state leaves the preference table
empty. -/
theorem register_seeds_defaults_witness :
    ((register AppState.empty 0
        (some ⟨some "carol", some "c@x.com", some "hunter2"⟩)).1
      = RegisterResult.created 1 →
      UserPreferences.get_preferences
        (register AppState.empty 0
          (some ⟨some "carol", some "c@x.com", some "hunter2"⟩)).2.db 1
        = default_prefs) ∧
    ((∀ uid, (register AppState.empty 0
        (some ⟨some "carol", some "c@x.com", some "abc"⟩)).1
        ≠ RegisterResult.created uid) →
      (register AppState.empty 0
        (some ⟨some "carol", some "c@x.com", some "abc"⟩)).2.db.prefs
        = AppState.empty.db.prefs) :=
  ⟨(register_seeds_defaults AppState.empty 0
      (some ⟨some "carol", some "c@x.com", some "hunter2"⟩)
      (by decide)).1 1,
   (register_seeds_defaults AppState.empty 0
      (some ⟨some "carol", some "c@x.com", some "abc"⟩)
      (by decide)).2⟩

/-- C6: `register` fails with a 400 `ValidationError` — storing nothing, the
state is returned untouched — whenever the body is missing, any of the three
fields username/email/password is absent, the username is shorter than 3
characters, or the password is shorter than 6 characters; and it reaches the
Credential Store (i.e. returns anything other than a `ValidationError`) only
when all three fields are present, the username has at least 3 characters
and the password at least 6. -/
theorem register_validation (st : AppState) (now : Nat)
    (data : Option RegisterRequest) :
    ((data = none ∨ ∃ d, data = some d ∧
        (d.username = none ∨ d.email = none ∨ d.password = none ∨
         (d.username.getD "").length < 3 ∨ (d.password.getD "").length < 6)) →
      ∃ msg, register st now data = (.validationError msg, st)) ∧
    (∀ d, data = some d →
      (∀ msg, (register st now data).1 ≠ .validationError msg) →
      d.username.isSome ∧ d.email.isSome ∧ d.password.isSome ∧
      3 ≤ (d.username.getD "").length ∧ 6 ≤ (d.password.getD "").length) := by
  constructor
  · intro h
    rcases h with rfl | ⟨d, rfl, hbad⟩
    · exact ⟨"Username, email, and password are required", rfl⟩
    by_cases hbu : strBlank d.username = true
    · exact ⟨"Username, email, and password are required",
        by simp [register, hbu]⟩
    by_cases hbe : strBlank d.email = true
    · exact ⟨"Username, email, and password are required",
        by simp [register, hbe]⟩
    by_cases hbp : strBlank d.password = true
    · exact ⟨"Username, email, and password are required",
        by simp [register, hbp]⟩
    have hbu' := Bool.of_not_eq_true hbu
    have hbe' := Bool.of_not_eq_true hbe
    have hbp' := Bool.of_not_eq_true hbp
    rcases hbad with h | h | h | h | h
    · rw [h] at hbu'
      simp [strBlank] at hbu'
    · rw [h] at hbe'
      simp [strBlank] at hbe'
    · rw [h] at hbp'
      simp [strBlank] at hbp'
    · exact ⟨"Username must be at least 3 characters",
        by simp [register, hbu', hbe', hbp', h]⟩
    · by_cases h3 : (d.username.getD "").length < 3
      · exact ⟨"Username must be at least 3 characters",
          by simp [register, hbu', hbe', hbp', h3]⟩
      · exact ⟨"Password must be at least 6 characters",
          by simp [register, hbu', hbe', hbp', h3, h]⟩
  · intro d hd hnv
    subst hd
    by_cases hbu : strBlank d.username = true
    · exact absurd
        (by simp [register, hbu] : (register st now (some d)).1
          = .validationError "Username, email, and password are required")
        (hnv _)
    by_cases hbe : strBlank d.email = true
    · exact absurd
        (by simp [register, hbe] : (register st now (some d)).1
          = .validationError "Username, email, and password are required")
        (hnv _)
    by_cases hbp : strBlank d.password = true
    · exact absurd
        (by simp [register, hbp] : (register st now (some d)).1
          = .validationError "Username, email, and password are required")
        (hnv _)
    have hbu' := Bool.of_not_eq_true hbu
    have hbe' := Bool.of_not_eq_true hbe
    have hbp' := Bool.of_not_eq_true hbp
    by_cases h3 : (d.username.getD "").length < 3
    · exact absurd
        (by simp [register, hbu', hbe', hbp', h3] :
          (register st now (some d)).1
            = .validationError "Username must be at least 3 characters")
        (hnv _)
    by_cases h6 : (d.password.getD "").length < 6
    · exact absurd
        (by simp [register, hbu', hbe', hbp', h3, h6] :
          (register st now (some d)).1
            = .validationError "Password must be at least 6 characters")
        (hnv _)
    refine ⟨?_, ?_, ?_, by omega, by omega⟩
    · cases hu : d.username with
      | none => rw [hu] at hbu'; simp [strBlank] at hbu'
      | some s => rfl
    · cases he : d.email with
      | none => rw [he] at hbe'; simp [strBlank] at hbe'
      | some s => rfl
    · cases hp : d.password with
      | none => rw [hp] at hbp'; simp [strBlank] at hbp'
      | some s => rfl

/-- C6 witness: a registration with a 2-character username is rejected with a
400 and no state change, discharging the first branch of the validation
theorem at a concrete input. -/
theorem register_validation_witness :
    ∃ msg, register AppState.empty 0
        (some ⟨some "ab", some "e@x.com", some "longpass"⟩)
      = (.validationError msg, AppState.empty) :=
  (register_validation AppState.empty 0
      (some ⟨some "ab", some "e@x.com", some "longpass"⟩)).1
    (Or.inr ⟨⟨some "ab", some "e@x.com", some "longpass"⟩, rfl,
      Or.inr (Or.inr (Or.inr (Or.inl (by decide))))⟩)

/-- An upsert by user `u` leaves the preference rows of any other user `v`
untouched. -/
theorem set_preference_filter_frame (db : DB) (now u v : Nat)
    (k val : String) (hne : v ≠ u) :
    (UserPreferences.set_preference db now u k val).prefs.filter
        (fun r => r.user_id == v)
      = db.prefs.filter (fun r => r.user_id == v) := by
  unfold UserPreferences.set_preference
  split
  · refine list_filter_map_invariant _ _ ?_ ?_ _
    · intro a
      split <;> rfl
    · intro a ha
      have h1 : a.user_id = v := by simpa using ha
      have h2 : (a.user_id == u) = false :=
        beq_eq_false_iff_ne.mpr (by rw [h1]; exact hne)
      simp [h2]
  · rw [List.filter_append]
    have hrow : ((u : Nat) == v) = false :=
      beq_eq_false_iff_ne.mpr (fun h => hne h.symm)
    simp [hrow]

/-- An upsert by user `u` does not change another user's preference map. -/
theorem get_preferences_frame_set (db : DB) (now u v : Nat) (k val : String)
    (hne : v ≠ u) :
    UserPreferences.get_preferences
        (UserPreferences.set_preference db now u k val) v
      = UserPreferences.get_preferences db v := by
  unfold UserPreferences.get_preferences
  rw [set_preference_filter_frame db now u v k val hne]

/-- A batch of upserts by user `u` does not change another user's preference
map. -/
theorem get_preferences_frame_setMany (now u v : Nat) (hne : v ≠ u) :
    ∀ (kvs : List (String × String)) (db : DB),
      UserPreferences.get_preferences
          (UserPreferences.set_multiple_preferences db now u kvs) v
        = UserPreferences.get_preferences db v := by
  intro kvs
  induction kvs with
  | nil => intro db; rfl
  | cons kv rest ih =>
    intro db
    obtain ⟨k, val⟩ := kv
    rw [UserPreferences.set_multiple_preferences, ih,
      get_preferences_frame_set db now u v k val hne]

/-- A preference delete by user `u` does not change another user's
preference map. -/
theorem get_preferences_frame_delete (db : DB) (u v : Nat) (k : String)
    (hne : v ≠ u) :
    UserPreferences.get_preferences (UserPreferences.delete_preference db u k) v
      = UserPreferences.get_preferences db v := by
  unfold UserPreferences.get_preferences UserPreferences.delete_preference
  rw [list_filter_filter_of_imp _ _ ?_ db.prefs]
  intro a ha
  have h1 : a.user_id = v := by simpa using ha
  have h2 : (a.user_id == u) = false :=
    beq_eq_false_iff_ne.mpr (by rw [h1]; exact hne)
  simp [h2]

/-- A preset created by user `u` never shows up in another user's listing. -/
theorem get_presets_frame_create (db : DB) (now u v : Nat) (name : String)
    (hh hm hs : Int) (hne : v ≠ u) :
    UserPresets.get_presets
        (UserPresets.create_preset db now u name hh hm hs).2 v
      = UserPresets.get_presets db v := by
  unfold UserPresets.get_presets UserPresets.create_preset
  have hrow : ((u : Nat) == v) = false :=
    beq_eq_false_iff_ne.mpr (fun h => hne h.symm)
  simp [List.filter_append, hrow]

/-- A preset update by user `u` does not change another user's listing. -/
theorem get_presets_frame_update (db : DB) (u v pid : Nat) (name : String)
    (hh hm hs : Int) (hne : v ≠ u) :
    UserPresets.get_presets
        (UserPresets.update_preset db u pid name hh hm hs) v
      = UserPresets.get_presets db v := by
  unfold UserPresets.get_presets UserPresets.update_preset
  rw [list_filter_map_invariant _ _ ?_ ?_ db.presets]
  · intro a
    split <;> rfl
  · intro a ha
    have h1 : a.user_id = v := by simpa using ha
    have h2 : (a.user_id == u) = false :=
      beq_eq_false_iff_ne.mpr (by rw [h1]; exact hne)
    simp [h2]

/-- A preset delete by user `u` does not change another user's listing. -/
theorem get_presets_frame_delete (db : DB) (u v pid : Nat) (hne : v ≠ u) :
    UserPresets.get_presets (UserPresets.delete_preset db u pid) v
      = UserPresets.get_presets db v := by
  unfold UserPresets.get_presets UserPresets.delete_preset
  rw [list_filter_filter_of_imp _ _ ?_ db.presets]
  intro a ha
  have h1 : a.user_id = v := by simpa using ha
  have h2 : (a.user_id == u) = false :=
    beq_eq_false_iff_ne.mpr (by rw [h1]; exact hne)
  simp [h2]

/-- A preset listing contains only rows owned by the requesting user. -/
theorem get_presets_owned (db : DB) (u : Nat) :
    ∀ r ∈ UserPresets.get_presets db u, r.user_id = u := by
  intro r hr
  unfold UserPresets.get_presets at hr
  have hr' : r ∈ db.presets.filter (fun r => r.user_id == u) :=
    (List.mem_insertionSort _).mp hr
  simpa using (List.mem_filter.mp hr').2

/-- Preference writes never touch the presets table. -/
theorem set_preference_presets (db : DB) (now u : Nat) (k v : String) :
    (UserPreferences.set_preference db now u k v).presets = db.presets := by
  unfold UserPreferences.set_preference
  split <;> rfl

/-- Batched preference writes never touch the presets table. -/
theorem set_multiple_preferences_presets (now u : Nat) :
    ∀ (kvs : List (String × String)) (db : DB),
      (UserPreferences.set_multiple_preferences db now u kvs).presets
        = db.presets := by
  intro kvs
  induction kvs with
  | nil => intro db; rfl
  | cons kv rest ih =>
    intro db
    obtain ⟨k, v⟩ := kv
    rw [UserPreferences.set_multiple_preferences, ih, set_preference_presets]

/-- C10: cross-user isolation. For distinct user ids `v ≠ u`, every mutating
preference operation (set, setMany, delete) and preset operation (create,
update, delete) invoked with user id `u` leaves user `v`'s preference map
and preset listing reading exactly the same, and leaves the other table
untouched outright; moreover the preset listing for `u` returns only rows
owned by `u` (the preference read is scoped to `u`'s rows by construction).
-/
theorem cross_user_isolation (db : DB) (now u v pid : Nat)
    (k val name : String) (hh hm hs : Int) (kvs : List (String × String))
    (hne : v ≠ u) :
    UserPreferences.get_preferences
        (UserPreferences.set_preference db now u k val) v
      = UserPreferences.get_preferences db v ∧
    UserPreferences.get_preferences
        (UserPreferences.set_multiple_preferences db now u kvs) v
      = UserPreferences.get_preferences db v ∧
    UserPreferences.get_preferences
        (UserPreferences.delete_preference db u k) v
      = UserPreferences.get_preferences db v ∧
    UserPresets.get_presets
        (UserPresets.create_preset db now u name hh hm hs).2 v
      = UserPresets.get_presets db v ∧
    UserPresets.get_presets
        (UserPresets.update_preset db u pid name hh hm hs) v
      = UserPresets.get_presets db v ∧
    UserPresets.get_presets (UserPresets.delete_preset db u pid) v
      = UserPresets.get_presets db v ∧
    (UserPreferences.set_preference db now u k val).presets = db.presets ∧
    (UserPreferences.set_multiple_preferences db now u kvs).presets
      = db.presets ∧
    (UserPreferences.delete_preference db u k).presets = db.presets ∧
    (UserPresets.create_preset db now u name hh hm hs).2.prefs = db.prefs ∧
    (UserPresets.update_preset db u pid name hh hm hs).prefs = db.prefs ∧
    (UserPresets.delete_preset db u pid).prefs = db.prefs ∧
    (∀ r ∈ UserPresets.get_presets db u, r.user_id = u) :=
  ⟨get_preferences_frame_set db now u v k val hne,
   get_preferences_frame_setMany now u v hne kvs db,
   get_preferences_frame_delete db u v k hne,
   get_presets_frame_create db now u v name hh hm hs hne,
   get_presets_frame_update db u v pid name hh hm hs hne,
   get_presets_frame_delete db u v pid hne,
   set_preference_presets db now u k val,
   set_multiple_preferences_presets now u kvs db,
   rfl,
   rfl,
   rfl,
   rfl,
   get_presets_owned db u⟩

/-- C10 witness: on a store holding one preference row and one preset for
each of users 1 and 2, every operation by user 1 leaves user 2's reads and
the opposite table unchanged, instantiating the isolation theorem at
concrete state. -/
theorem cross_user_isolation_witness :
    UserPreferences.get_preferences
        (UserPreferences.set_preference
          ⟨[], [⟨1, "a", "x", 0⟩, ⟨2, "a", "y", 0⟩],
           [⟨1, 1, "p", 0, 1, 0, 0⟩, ⟨2, 2, "q", 0, 2, 0, 1⟩], 3, 3⟩
          9 1 "a" "z") 2
      = UserPreferences.get_preferences
          ⟨[], [⟨1, "a", "x", 0⟩, ⟨2, "a", "y", 0⟩],
           [⟨1, 1, "p", 0, 1, 0, 0⟩, ⟨2, 2, "q", 0, 2, 0, 1⟩], 3, 3⟩ 2 ∧
    UserPresets.get_presets
        (UserPresets.delete_preset
          ⟨[], [⟨1, "a", "x", 0⟩, ⟨2, "a", "y", 0⟩],
           [⟨1, 1, "p", 0, 1, 0, 0⟩, ⟨2, 2, "q", 0, 2, 0, 1⟩], 3, 3⟩ 1 2) 2
      = UserPresets.get_presets
          ⟨[], [⟨1, "a", "x", 0⟩, ⟨2, "a", "y", 0⟩],
           [⟨1, 1, "p", 0, 1, 0, 0⟩, ⟨2, 2, "q", 0, 2, 0, 1⟩], 3, 3⟩ 2 ∧
    (∀ r ∈ UserPresets.get_presets
        ⟨[], [⟨1, "a", "x", 0⟩, ⟨2, "a", "y", 0⟩],
         [⟨1, 1, "p", 0, 1, 0, 0⟩, ⟨2, 2, "q", 0, 2, 0, 1⟩], 3, 3⟩ 1,
      r.user_id = 1) :=
  have h := cross_user_isolation
    ⟨[], [⟨1, "a", "x", 0⟩, ⟨2, "a", "y", 0⟩],
     [⟨1, 1, "p", 0, 1, 0, 0⟩, ⟨2, 2, "q", 0, 2, 0, 1⟩], 3, 3⟩
    9 1 2 2 "a" "z" "nm" 1 2 3 [("b", "c")] (by decide)
  ⟨h.1, h.2.2.2.2.2.1, h.2.2.2.2.2.2.2.2.2.2.2.2⟩
